import Mathlib

/-!
Verification of the face-filter camera module (`src/data.c`).

The module wires Tizen camera callbacks together.  The shared state between
the asynchronous face-detection callback and the synchronous preview callback
is the globals `cam_face : camera_detected_face_s *` (a buffer of
`MAXIMUM_FACE_NUMBER` slots, or NULL when face detection is unsupported) and
`cam_face_num : int`, guarded by the `facelock` pthread mutex acquired with
`pthread_mutex_trylock`.

Shallow embedding conventions:
* C `int` values are `Int`.
* A possibly-NULL buffer of `camera_detected_face_s` records is
  `Option (List camera_detected_face_s)`; `none` is the NULL pointer.
* The frame's Y plane (`frame->data.double_plane.y`) is a total map
  `Int → Nat` from linear byte index to byte value.
* `pthread_mutex_trylock` succeeding is a `Bool` parameter `lockFree`.
* A callback that can dereference NULL returns `Option` of its result;
  `none` marks the undefined behaviour.
* `MAXIMUM_FACE_NUMBER` is defined in the repository's `main.h`, which is
  outside `src/`; it is modelled as an arbitrary `Nat` parameter `MAX`.
-/

/-- The Tizen `camera_detected_face_s` record: id, score and the rectangle
of the detected face, all C `int` fields. -/
structure camera_detected_face_s where
  id : Int
  score : Int
  x : Int
  y : Int
  width : Int
  height : Int
  deriving DecidableEq, Repr

/-- Point write into the Y plane: `y[idx] = v`. -/
def setByte (yp : Int → Nat) (idx : Int) (v : Nat) : Int → Nat :=
  fun k => if k = idx then v else yp k

/-- The inner loop `for(i=0;i<width;i++) y[base + i] = 0` of
`__camera_preview_cb`, run for `w` iterations (`w = width` clamped at 0,
as a C `for` loop with a non-positive bound runs zero times). -/
def zeroRow (base : Int) : Nat → (Int → Nat) → Int → Nat
  | 0, yp => yp
  | Nat.succ i, yp => setByte (zeroRow base i yp) (base + (i : Int)) 0

/-- The outer loop `for(j=0;j<height;j++)` of `__camera_preview_cb`: row `j`
zeroes the `w` bytes starting at `base + j*640`. -/
def zeroRows (base : Int) (w : Nat) : Nat → (Int → Nat) → Int → Nat
  | 0, yp => yp
  | Nat.succ j, yp => zeroRow (base + (j : Int) * 640) w (zeroRows base w j yp)

/-- The pixel-zeroing loop body of `__camera_preview_cb` for one face `f`:
`begin = f.x + f.y*640`, then `y[begin + i + j*640] = 0` for all
`0 <= i < f.width`, `0 <= j < f.height` (stride hardcoded to 640). -/
def zeroFaceRegion (f : camera_detected_face_s) (yp : Int → Nat) : Int → Nat :=
  zeroRows (f.x + f.y * 640) f.width.toNat f.height.toNat yp

/-- `__camera_preview_cb` (src/data.c:365-379): under a successful trylock,
if `cam_face != NULL && cam_face_num > 0 && cam_data.face_running`, zero the
first stored face's rectangle in the frame's Y plane.  An allocated `cam_face`
buffer has `MAXIMUM_FACE_NUMBER >= 1` slots, so the `some []` case is
unreachable; it is mapped to the identity. -/
def __camera_preview_cb (lockFree : Bool)
    (cam_face : Option (List camera_detected_face_s)) (cam_face_num : Int)
    (face_running : Bool) (yp : Int → Nat) : Int → Nat :=
  if lockFree then
    match cam_face with
    | none => yp
    | some [] => yp
    | some (f :: _) =>
        if 0 < cam_face_num ∧ face_running then zeroFaceRegion f yp else yp
  else yp

/-- `__camera_face_detected_cb` (src/data.c:323-341).  Result is the new
`(cam_face, cam_face_num)` pair, or `none` when the callback commits
undefined behaviour (the `memcpy` through a NULL `cam_face`).  Note the
`count == 0` path stores `cam_face_num = count` without touching the lock.
`MAX` stands for `MAXIMUM_FACE_NUMBER` (defined outside `src/`). -/
def __camera_face_detected_cb (MAX : Nat)
    (faces : Option (List camera_detected_face_s)) (count : Int)
    (lockFree : Bool) (cam_face : Option (List camera_detected_face_s))
    (cam_face_num : Int) :
    Option (Option (List camera_detected_face_s) × Int) :=
  if count = 0 then
    some (cam_face, count)
  else
    match faces with
    | none => some (cam_face, cam_face_num)
    | some fl =>
        if 0 < count then
          let c : Int := if (MAX : Int) < count then (MAX : Int) else count
          if lockFree then
            match cam_face with
            | none => none
            | some buf =>
                some (some (fl.take c.toNat ++ buf.drop c.toNat), c)
          else some (cam_face, cam_face_num)
        else some (cam_face, cam_face_num)

/-- `CAMERA_ERROR_NONE` of the Tizen camera API. -/
def CAMERA_ERROR_NONE : Int := 0

/-- `__camera_cb_face` (src/data.c:343-363): the "Face Detect" button
handler.  Takes the current `cam_data.face_running` flag and the return
codes the platform calls would yield (`stop_result` for
`camera_stop_face_detection`, `start_result` for
`camera_start_face_detection`); returns the new `face_running` flag. -/
def __camera_cb_face (face_running : Bool) (stop_result start_result : Int) :
    Bool :=
  if face_running then
    if stop_result ≠ CAMERA_ERROR_NONE then face_running else false
  else
    if start_result ≠ CAMERA_ERROR_NONE then face_running else true

/-- The `camera_image_data_s` argument of the capturing callback: a
possibly-NULL `data` pointer and the byte count `size`. -/
structure camera_image_data_s where
  data : Option (List Nat)
  size : Nat
  deriving DecidableEq, Repr

/-- `_camera_capturing_cb` (src/data.c:224-252).  Result is
`some (path, bytes)` when a file is created: `path` from
`snprintf("%s/cam%d.jpg", camera_directory, time(NULL))` and `bytes` the
`fwrite(image->data, 1, image->size, file)` payload; `none` when the `NULL`
check fails and nothing is written. -/
def _camera_capturing_cb (camera_directory : String) (now : Int)
    (image : Option camera_image_data_s) : Option (String × List Nat) :=
  match image with
  | none => none
  | some img =>
      match img.data with
      | none => none
      | some d =>
          some (camera_directory ++ "/cam" ++ toString now ++ ".jpg",
            d.take img.size)

/-- Tizen `camera_state_e` enumerator values (sequential from 0). -/
def CAMERA_STATE_NONE : Int := 0

/-- Tizen `camera_state_e`: `CAMERA_STATE_CREATED`. -/
def CAMERA_STATE_CREATED : Int := 1

/-- Tizen `camera_state_e`: `CAMERA_STATE_PREVIEW`. -/
def CAMERA_STATE_PREVIEW : Int := 2

/-- Tizen `camera_state_e`: `CAMERA_STATE_CAPTURING`. -/
def CAMERA_STATE_CAPTURING : Int := 3

/-- Tizen `camera_state_e`: `CAMERA_STATE_CAPTURED`. -/
def CAMERA_STATE_CAPTURED : Int := 4

/-- `_camera_state_to_string` (src/data.c:55-76): the `switch` over
`camera_state_e` with a `default: return "Unknown"` arm. -/
def _camera_state_to_string (state : Int) : String :=
  if state = CAMERA_STATE_NONE then "CAMERA_STATE_NONE"
  else if state = CAMERA_STATE_CREATED then "CAMERA_STATE_CREATED"
  else if state = CAMERA_STATE_PREVIEW then "CAMERA_STATE_PREVIEW"
  else if state = CAMERA_STATE_CAPTURING then "CAMERA_STATE_CAPTURING"
  else if state = CAMERA_STATE_CAPTURED then "CAMERA_STATE_CAPTURED"
  else "Unknown"

/-- `_preview_resolution_cb` (src/data.c:129-138).  `user_data` is the
`int resolution[2]` pointer: the outer `Option` is pointer nullity, the
inner `Option (Int × Int)` the array's contents (`none` = still
uninitialized).  Returns the new contents and the continue flag. -/
def _preview_resolution_cb (width height : Int)
    (user_data : Option (Option (Int × Int))) :
    Option (Option (Int × Int)) × Bool :=
  match user_data with
  | none => (none, true)
  | some res =>
      (some (if width < 700 then some (width, height) else res), true)

/-- The driver loop of `camera_foreach_supported_preview_resolution`
(per the API contract quoted in the source's doc comments): invoke
`_preview_resolution_cb` on each supported resolution in order, at the
non-NULL address of the `resolution` array, stopping when the callback
returns `false`. -/
def runPreviewResolutions (rs : List (Int × Int))
    (res : Option (Int × Int)) : Option (Int × Int) :=
  match rs with
  | [] => res
  | (w, h) :: rest =>
      match _preview_resolution_cb w h (some res) with
      | (some res2, true) => runPreviewResolutions rest res2
      | (some res2, false) => res2
      | (none, _) => res

/-- Modelled from the spec: "the resolution finally stored is the last
supported resolution (in the platform's enumeration order) with
width < 700" — the spec-side characterization compared against
`runPreviewResolutions`. -/
def lastResolutionBelow700 : List (Int × Int) → Option (Int × Int)
  | [] => none
  | (w, h) :: rest =>
      match lastResolutionBelow700 rest with
      | some p => some p
      | none => if w < 700 then some (w, h) else none

/-- The two shared globals the `facelock` mutex guards. -/
inductive SharedVar
  | faceBuf
  | faceNum
  deriving DecidableEq, Repr

/-- One access to the shared state: which global, whether it is a write,
and whether `facelock` is held at that moment. -/
structure MemAccess where
  var : SharedVar
  isWrite : Bool
  lockHeld : Bool
  deriving DecidableEq, Repr

/-- The accesses to `cam_face` / `cam_face_num` performed by one execution
of `__camera_face_detected_cb` (src/data.c:323-341), in program order.
The `count == 0` path writes `cam_face_num = count` before any lock is
taken; the copy path writes both globals inside the trylock/unlock pair. -/
def faceDetectedAccesses (count : Int) (facesNonNull lockFree : Bool) :
    List MemAccess :=
  if count = 0 then
    [⟨SharedVar.faceNum, true, false⟩]
  else if 0 < count ∧ facesNonNull then
    if lockFree then
      [⟨SharedVar.faceBuf, true, true⟩, ⟨SharedVar.faceNum, true, true⟩]
    else []
  else []

/-- The accesses to `cam_face` / `cam_face_num` performed by one execution
of `__camera_preview_cb` (src/data.c:365-379), in program order: the whole
body, condition included, runs inside the trylock/unlock pair; `&&`
short-circuits, and the zeroing loop reads `cam_face` fields. -/
def previewAccesses (lockFree camFaceNonNull : Bool) (cam_face_num : Int)
    (face_running : Bool) : List MemAccess :=
  if lockFree then
    ⟨SharedVar.faceBuf, false, true⟩ ::
      (if camFaceNonNull then
        ⟨SharedVar.faceNum, false, true⟩ ::
          (if 0 < cam_face_num ∧ face_running then
            [⟨SharedVar.faceBuf, false, true⟩]
          else [])
      else [])
  else []

/-! ## Characterization of the pixel-zeroing loops -/

lemma setByte_eval (yp : Int → Nat) (idx : Int) (v : Nat) (k : Int) :
    setByte yp idx v k = if k = idx then v else yp k := rfl

lemma zeroRow_eval (base : Int) (w : Nat) (yp : Int → Nat) (k : Int) :
    zeroRow base w yp k = if base ≤ k ∧ k < base + (w : Int) then 0 else yp k := by
  induction w with
  | zero =>
      simp only [zeroRow]
      split
      · rename_i hc
        exfalso
        push_cast at hc
        omega
      · rfl
  | succ w ih =>
      simp only [zeroRow, setByte, ih]
      split_ifs <;> first
        | rfl
        | (exfalso; push_cast at *; omega)

lemma zeroRows_eval_mem (base : Int) (w h : Nat) (yp : Int → Nat) (k : Int)
    (hcov : ∃ j : Nat, j < h ∧ base + (j : Int) * 640 ≤ k ∧
      k < base + (j : Int) * 640 + (w : Int)) :
    zeroRows base w h yp k = 0 := by
  induction h with
  | zero =>
      obtain ⟨j, hj, _⟩ := hcov
      omega
  | succ h ih =>
      simp only [zeroRows, zeroRow_eval]
      obtain ⟨j, hj, h1, h2⟩ := hcov
      split
      · rfl
      · rename_i hneg
        apply ih
        refine ⟨j, ?_, h1, h2⟩
        by_cases hjh : j = h
        · subst hjh
          exact absurd ⟨h1, h2⟩ hneg
        · omega

lemma zeroRows_eval_not (base : Int) (w h : Nat) (yp : Int → Nat) (k : Int)
    (hcov : ∀ j : Nat, j < h → ¬ (base + (j : Int) * 640 ≤ k ∧
      k < base + (j : Int) * 640 + (w : Int))) :
    zeroRows base w h yp k = yp k := by
  induction h with
  | zero => rfl
  | succ h ih =>
      simp only [zeroRows, zeroRow_eval]
      rw [if_neg (hcov h (by omega))]
      exact ih (fun j hj => hcov j (by omega))

lemma preview_cb_eval (f : camera_detected_face_s)
    (rest : List camera_detected_face_s) (num : Int) (yp : Int → Nat)
    (hnum : 0 < num) :
    __camera_preview_cb true (some (f :: rest)) num true yp
      = zeroFaceRegion f yp := by
  simp [__camera_preview_cb, hnum]

lemma faceRegion_iff (f : camera_detected_face_s) (k : Int) :
    (∃ j : Nat, j < f.height.toNat ∧
        f.x + f.y * 640 + (j : Int) * 640 ≤ k ∧
        k < f.x + f.y * 640 + (j : Int) * 640 + (f.width.toNat : Int))
    ↔ (∃ i j : Int, 0 ≤ i ∧ i < f.width ∧ 0 ≤ j ∧ j < f.height ∧
        k = (f.x + f.y * 640) + i + j * 640) := by
  constructor
  · rintro ⟨j, hj, h1, h2⟩
    refine ⟨k - (f.x + f.y * 640) - (j : Int) * 640, (j : Int),
      ?_, ?_, ?_, ?_, ?_⟩ <;> omega
  · rintro ⟨i, j, hi0, hi, hj0, hj, hk⟩
    refine ⟨j.toNat, ?_, ?_, ?_⟩ <;> omega

/-- Claim C2: for a preview frame processed with `cam_face` non-null (first
stored rectangle `f`), `cam_face_num > 0`, face detection running and a
successful trylock, the preview callback zeroes exactly the Y-plane bytes at
linear index `(f.x + f.y*640) + i + j*640` for `0 ≤ i < f.width`,
`0 ≤ j < f.height` (row-major, hardcoded stride 640), and changes no other
byte of the frame. -/
theorem C2_preview_zeroes_first_region (f : camera_detected_face_s)
    (rest : List camera_detected_face_s) (num : Int) (yp : Int → Nat) (k : Int)
    (hnum : 0 < num) :
    ((∃ i j : Int, 0 ≤ i ∧ i < f.width ∧ 0 ≤ j ∧ j < f.height ∧
        k = (f.x + f.y * 640) + i + j * 640) →
      __camera_preview_cb true (some (f :: rest)) num true yp k = 0)
    ∧ ((¬ ∃ i j : Int, 0 ≤ i ∧ i < f.width ∧ 0 ≤ j ∧ j < f.height ∧
        k = (f.x + f.y * 640) + i + j * 640) →
      __camera_preview_cb true (some (f :: rest)) num true yp k = yp k) := by
  rw [preview_cb_eval f rest num yp hnum]
  unfold zeroFaceRegion
  constructor
  · intro hmem
    exact zeroRows_eval_mem _ _ _ _ _ ((faceRegion_iff f k).2 hmem)
  · intro hnot
    apply zeroRows_eval_not
    intro j hj hcontra
    exact hnot ((faceRegion_iff f k).1 ⟨j, hj, hcontra.1, hcontra.2⟩)

/-- A concrete face rectangle used by witnesses: x=1, y=1, width=2, height=2. -/
def faceA : camera_detected_face_s := ⟨0, 0, 1, 1, 2, 2⟩

/-- A concrete all-sevens Y plane used by witnesses. -/
def yp7 : Int → Nat := fun _ => 7

theorem C2_preview_zeroes_first_region_witness :
    __camera_preview_cb true (some [faceA]) 1 true yp7 641 = 0 :=
  (C2_preview_zeroes_first_region faceA [] 1 yp7 641 (by norm_num)).1
    ⟨0, 0, by norm_num [faceA]⟩

/-- The first stored face rectangle used by the C3 counterexample:
x=0, y=0, width=1, height=1 (its region is the single index 0). -/
def faceC : camera_detected_face_s := ⟨0, 0, 0, 0, 1, 1⟩

/-- The second stored face rectangle used by the C3 counterexample:
x=10, y=0, width=1, height=1 (its region is the single index 10). -/
def faceB : camera_detected_face_s := ⟨1, 0, 10, 0, 1, 1⟩

/-- Claim C3 counterexample: with two rectangles stored
(`cam_face_num = 2`), index 10 lies in the second rectangle's region, yet
the preview callback leaves that byte at its old value 1 instead of
zeroing it — only the first rectangle is blanked. -/
theorem C3_counterexample :
    (∃ i j : Int, 0 ≤ i ∧ i < faceB.width ∧ 0 ≤ j ∧ j < faceB.height ∧
        (10 : Int) = (faceB.x + faceB.y * 640) + i + j * 640)
    ∧ __camera_preview_cb true (some [faceC, faceB]) 2 true (fun _ => 1) 10
        = 1 := by
  constructor
  · exact ⟨0, 0, by norm_num [faceB]⟩
  · decide

/-- Claim C3 (amended): the preview callback blanks only the FIRST stored
rectangle.  Any byte outside the first rectangle's region — in particular
every pixel of the second and later rectangles that does not overlap the
first — keeps its old value, and the result does not depend on the stored
rectangles after the first. -/
theorem C3_only_first_rectangle (f : camera_detected_face_s)
    (rest rest2 : List camera_detected_face_s) (num : Int) (yp : Int → Nat)
    (k : Int) (hnum : 0 < num)
    (hk : ¬ ∃ i j : Int, 0 ≤ i ∧ i < f.width ∧ 0 ≤ j ∧ j < f.height ∧
        k = (f.x + f.y * 640) + i + j * 640) :
    __camera_preview_cb true (some (f :: rest)) num true yp k = yp k
    ∧ __camera_preview_cb true (some (f :: rest)) num true yp
        = __camera_preview_cb true (some (f :: rest2)) num true yp := by
  constructor
  · rw [preview_cb_eval f rest num yp hnum]
    unfold zeroFaceRegion
    apply zeroRows_eval_not
    intro j hj hcontra
    exact hk ((faceRegion_iff f k).1 ⟨j, hj, hcontra.1, hcontra.2⟩)
  · rw [preview_cb_eval f rest num yp hnum,
      preview_cb_eval f rest2 num yp hnum]

theorem C3_only_first_rectangle_witness :
    __camera_preview_cb true (some [faceC, faceB]) 2 true (fun _ => 1) 10
      = 1 :=
  (C3_only_first_rectangle faceC [faceB] [] 2 (fun _ => 1) 10 (by norm_num)
    (by
      rintro ⟨i, j, hi0, hi, hj0, hj, hke⟩
      simp only [faceC] at hi hj hke
      omega)).1

/-- Claim C1 counterexample: the execution of `__camera_face_detected_cb`
with `count = 0` writes `cam_face_num` without holding `facelock`
(src/data.c:325-328 runs before the trylock), so not every access to the
shared state happens inside a successful trylock/unlock pair. -/
theorem C1_counterexample :
    ¬ ∀ a ∈ faceDetectedAccesses 0 true true, a.lockHeld = true := by
  decide

/-- Claim C1 (amended): every access the preview callback makes to the
shared state is inside a successful trylock/unlock pair, and so is every
access the face-detection callback makes when `count ≠ 0`; the one
exception the code allows is the `count == 0` path, which writes
`cam_face_num = 0` without acquiring `facelock`. -/
theorem C1_trylock_guards (count : Int) (fn lf cfn : Bool) (num : Int)
    (r : Bool) (hcount : count ≠ 0) :
    (∀ a ∈ faceDetectedAccesses count fn lf, a.lockHeld = true)
    ∧ (∀ a ∈ previewAccesses lf cfn num r, a.lockHeld = true) := by
  constructor
  · intro a ha
    unfold faceDetectedAccesses at ha
    rw [if_neg hcount] at ha
    split_ifs at ha
    all_goals first
      | exact absurd ha (List.not_mem_nil a)
      | (fin_cases ha <;> rfl)
  · intro a ha
    unfold previewAccesses at ha
    split_ifs at ha
    all_goals first
      | exact absurd ha (List.not_mem_nil a)
      | (fin_cases ha <;> rfl)

theorem C1_trylock_guards_witness :
    (1 : Int) ≠ 0 ∧
    ((∀ a ∈ faceDetectedAccesses 1 true true, a.lockHeld = true)
    ∧ (∀ a ∈ previewAccesses true true 1 true, a.lockHeld = true)) :=
  ⟨by decide, C1_trylock_guards 1 true true true 1 true (by decide)⟩

/-- Claim C4: for `count > 0` and non-null `faces` of exactly `count`
records, the copy clamps to `min count MAXIMUM_FACE_NUMBER`: both the
number of records memcpy'd into `cam_face` and the stored `cam_face_num`
equal `min count MAX`, and at most `MAX` records are ever written into the
`MAX`-slot buffer. -/
theorem C4_memcpy_bounded (MAX : Nat) (fl buf : List camera_detected_face_s)
    (count cam_face_num : Int) (hc : 0 < count)
    (hlen : (fl.length : Int) = count) :
    __camera_face_detected_cb MAX (some fl) count true (some buf) cam_face_num
      = some (some (fl.take (min count (MAX : Int)).toNat
            ++ buf.drop (min count (MAX : Int)).toNat),
          min count (MAX : Int))
    ∧ (fl.take (min count (MAX : Int)).toNat).length
        = (min count (MAX : Int)).toNat
    ∧ (min count (MAX : Int)).toNat ≤ MAX := by
  have hne : count ≠ 0 := by omega
  have hcl : (if (MAX : Int) < count then (MAX : Int) else count)
      = min count (MAX : Int) := by
    rw [min_def]
    split_ifs <;> omega
  refine ⟨?_, ?_, ?_⟩
  · simp only [__camera_face_detected_cb, if_neg hne, if_pos hc, hcl]
    simp
  · rw [List.length_take]
    omega
  · omega

theorem C4_memcpy_bounded_witness :
    (0 : Int) < 3 ∧
    __camera_face_detected_cb 2 (some [faceC, faceB, faceA]) 3 true
        (some [faceA]) 0
      = some (some [faceC, faceB], 2) :=
  ⟨by norm_num, by
    rw [(C4_memcpy_bounded 2 [faceC, faceB, faceA] [faceA] 3 0 (by norm_num)
      (by simp)).1]
    rfl⟩

/-- Claim C5: when the detection callback runs with `count > 0` and
non-null `faces` but the trylock on `facelock` fails, the result is
dropped: `cam_face` and `cam_face_num` are returned unchanged. -/
theorem C5_trylock_fail_drops (MAX : Nat) (fl : List camera_detected_face_s)
    (count : Int) (cam_face : Option (List camera_detected_face_s))
    (cam_face_num : Int) (hc : 0 < count) :
    __camera_face_detected_cb MAX (some fl) count false cam_face cam_face_num
      = some (cam_face, cam_face_num) := by
  have hne : count ≠ 0 := by omega
  simp [__camera_face_detected_cb, hne, hc]

theorem C5_trylock_fail_drops_witness :
    (0 : Int) < 1 ∧
    __camera_face_detected_cb 1 (some [faceA]) 1 false none 5
      = some (none, 5) :=
  ⟨by norm_num, C5_trylock_fail_drops 1 [faceA] 1 none 5 (by norm_num)⟩

/-- Claim C6: the "Face Detect" button toggles `face_running` exactly when
the platform call succeeds: from `true` it becomes `false` iff
`camera_stop_face_detection` returns `CAMERA_ERROR_NONE`, from `false` it
becomes `true` iff `camera_start_face_detection` returns
`CAMERA_ERROR_NONE`; as the flag is boolean, on any error it is
unchanged. -/
theorem C6_face_toggle (stop_result start_result : Int) :
    (__camera_cb_face true stop_result start_result = false
      ↔ stop_result = CAMERA_ERROR_NONE)
    ∧ (__camera_cb_face false stop_result start_result = true
      ↔ start_result = CAMERA_ERROR_NONE) := by
  constructor
  · by_cases h : stop_result = CAMERA_ERROR_NONE <;>
      simp [__camera_cb_face, h]
  · by_cases h : start_result = CAMERA_ERROR_NONE <;>
      simp [__camera_cb_face, h]

/-- Claim C7: when the capturing callback gets a non-null image with a
non-null `data` pointer of at least `size` bytes, exactly `image->size`
bytes of `image->data` go into a newly created file at the camera
directory joined with `cam<current-time>.jpg`; with a null image or null
`data`, no file is created and nothing is written. -/
theorem C7_capturing_writes (camera_directory : String) (now : Int)
    (img : camera_image_data_s) (d : List Nat)
    (hdata : img.data = some d) (hsize : img.size ≤ d.length) :
    _camera_capturing_cb camera_directory now (some img)
        = some (camera_directory ++ "/cam" ++ toString now ++ ".jpg",
            d.take img.size)
    ∧ (d.take img.size).length = img.size
    ∧ _camera_capturing_cb camera_directory now none = none
    ∧ (∀ img2 : camera_image_data_s, img2.data = none →
        _camera_capturing_cb camera_directory now (some img2) = none) := by
  refine ⟨?_, ?_, rfl, ?_⟩
  · simp [_camera_capturing_cb, hdata]
  · rw [List.length_take]
    omega
  · intro img2 h2
    simp [_camera_capturing_cb, h2]

theorem C7_capturing_writes_witness :
    (⟨some [9, 8, 7], 3⟩ : camera_image_data_s).data = some [9, 8, 7] ∧
    _camera_capturing_cb "/opt/usr/media/Camera" 0
        (some ⟨some [9, 8, 7], 3⟩)
      = some ("/opt/usr/media/Camera" ++ "/cam" ++ toString (0 : Int)
          ++ ".jpg", [9, 8, 7].take 3) :=
  ⟨rfl, (C7_capturing_writes "/opt/usr/media/Camera" 0 ⟨some [9, 8, 7], 3⟩
    [9, 8, 7] rfl (by norm_num)).1⟩

/-- Claim C8: `_camera_state_to_string` maps each of the five
`camera_state_e` states to its literal enum name and every other input
value to `"Unknown"`. -/
theorem C8_state_to_string (s : Int)
    (h : s ≠ CAMERA_STATE_NONE ∧ s ≠ CAMERA_STATE_CREATED ∧
      s ≠ CAMERA_STATE_PREVIEW ∧ s ≠ CAMERA_STATE_CAPTURING ∧
      s ≠ CAMERA_STATE_CAPTURED) :
    _camera_state_to_string CAMERA_STATE_NONE = "CAMERA_STATE_NONE"
    ∧ _camera_state_to_string CAMERA_STATE_CREATED = "CAMERA_STATE_CREATED"
    ∧ _camera_state_to_string CAMERA_STATE_PREVIEW = "CAMERA_STATE_PREVIEW"
    ∧ _camera_state_to_string CAMERA_STATE_CAPTURING
        = "CAMERA_STATE_CAPTURING"
    ∧ _camera_state_to_string CAMERA_STATE_CAPTURED = "CAMERA_STATE_CAPTURED"
    ∧ _camera_state_to_string s = "Unknown" := by
  obtain ⟨h0, h1, h2, h3, h4⟩ := h
  refine ⟨rfl, rfl, rfl, rfl, rfl, ?_⟩
  simp [_camera_state_to_string, h0, h1, h2, h3, h4]

theorem C8_state_to_string_witness :
    (7 : Int) ≠ CAMERA_STATE_NONE ∧ _camera_state_to_string 7 = "Unknown" :=
  ⟨by decide, (C8_state_to_string 7
    (by refine ⟨?_, ?_, ?_, ?_, ?_⟩ <;> decide)).2.2.2.2.2⟩

/-- Claim C9: the detection callback's copy path dereferences `cam_face`
without a null check, so with `count > 0`, non-null `faces` and a
successful trylock it is memory-safe only if the buffer was allocated:
with `cam_face = NULL` the invocation is undefined behaviour (`none`),
with an allocated buffer it completes; the preview callback, by contrast,
tests `cam_face != NULL` and is safe even with a null buffer. -/
theorem C9_copy_requires_allocated (MAX : Nat)
    (fl : List camera_detected_face_s) (count cam_face_num : Int)
    (hc : 0 < count) :
    __camera_face_detected_cb MAX (some fl) count true none cam_face_num
        = none
    ∧ (∀ buf : List camera_detected_face_s,
        (__camera_face_detected_cb MAX (some fl) count true (some buf)
          cam_face_num).isSome = true)
    ∧ (∀ (yp : Int → Nat) (r : Bool) (n : Int),
        __camera_preview_cb true none n r yp = yp) := by
  have hne : count ≠ 0 := by omega
  refine ⟨?_, ?_, ?_⟩
  · simp [__camera_face_detected_cb, hne, hc]
  · intro buf
    simp [__camera_face_detected_cb, hne, hc]
  · intro yp r n
    rfl

theorem C9_copy_requires_allocated_witness :
    (0 : Int) < 1 ∧
    __camera_face_detected_cb 1 (some [faceA]) 1 true none 0 = none :=
  ⟨by norm_num, (C9_copy_requires_allocated 1 [faceA] 1 0 (by norm_num)).1⟩

/-- `runPreviewResolutions` computes the spec-side characterization: the
last enumerated resolution with width < 700, or the initial contents when
there is none. -/
lemma runPreviewResolutions_eq (rs : List (Int × Int))
    (res : Option (Int × Int)) :
    runPreviewResolutions rs res
      = (lastResolutionBelow700 rs).elim res some := by
  induction rs generalizing res with
  | nil => rfl
  | cons p rest ih =>
      obtain ⟨w, h⟩ := p
      simp only [runPreviewResolutions, _preview_resolution_cb,
        lastResolutionBelow700]
      rw [ih]
      cases hlast : lastResolutionBelow700 rest with
      | some p2 => simp
      | none =>
          split_ifs <;> simp [Option.elim]

/-- No enumerated resolution has width < 700: the spec-side
characterization is empty. -/
lemma lastResolutionBelow700_none (rs : List (Int × Int))
    (h : ∀ p ∈ rs, ¬ p.1 < 700) :
    lastResolutionBelow700 rs = none := by
  induction rs with
  | nil => rfl
  | cons p rest ih =>
      obtain ⟨w, hgt⟩ := p
      simp only [lastResolutionBelow700]
      rw [ih (fun q hq => h q (List.mem_cons_of_mem _ hq))]
      rw [if_neg (h (w, hgt) (List.mem_cons_self _ _))]

/-- Claim C10: the resolution-selection callback records a resolution only
for width < 700 and always continues, so the enumeration stores the last
supported resolution with width < 700; when no enumerated resolution has
width < 700, the output array is left unchanged. -/
theorem C10_last_resolution_below_700 (rs : List (Int × Int))
    (res : Option (Int × Int)) :
    runPreviewResolutions rs res
        = (lastResolutionBelow700 rs).elim res some
    ∧ (∀ (w h : Int) (u : Option (Option (Int × Int))),
        (_preview_resolution_cb w h u).2 = true)
    ∧ ((∀ p ∈ rs, ¬ p.1 < 700) → runPreviewResolutions rs res = res) := by
  refine ⟨runPreviewResolutions_eq rs res, ?_, ?_⟩
  · intro w h u
    cases u <;> rfl
  · intro hnone
    rw [runPreviewResolutions_eq rs res,
      lastResolutionBelow700_none rs hnone]
    rfl

theorem C10_last_resolution_below_700_witness :
    runPreviewResolutions [(800, 600), (640, 480), (320, 240)] none
      = some (320, 240) := by
  rw [(C10_last_resolution_below_700 [(800, 600), (640, 480), (320, 240)]
    none).1]
  rfl
